import Mathlib

/-!
Shallow embedding of the Nexus NES emulator core (JavaScript sources) and
verification of its specification claims.

Source files embedded here:
  * `memory.js`  — class `Memory` (the CPU bus: 2 KiB RAM, PPU/APU/controller
    routing, cartridge window).
  * `cpu.js`     — class `CPU` (registers, `reset`, `step`/`execute`) plus the
    loose helper fragments found after the class body (`push`/`pull`, `nmi`,
    `irq`, a second `execute`).
  * `input.js`   — class `Controller` and class `Input` (strobe/shift
    semantics at 0x4016/0x4017), and the `ppu.js` document embedded in the
    same file (class `PPU`: registers, latches, VRAM/OAM, `step`).
  * `apu.js`     — class `APU` (frame counter, register file) and class
    `DMCChannel`; the same file also carries the second `emulator.js`
    implementation (class `Emulator` with `runFrame`), which the spec's
    interface section follows.

Modelling conventions:
  * JS numbers on these code paths are non-negative integers; they are
    embedded as `Nat`, with explicit `% 2^k` / `&&&` masks exactly where the
    source masks.
  * `Uint8Array` cells are `Nat → Nat` maps; a write outside the array's
    length is a no-op (JS typed arrays silently drop out-of-range stores).
  * Methods that mutate `this` become functions `State → State` (or
    `State → Value × State` when they also return a value).
  * The cartridge object is not part of the repository sources; the bus only
    calls its `cpuRead`, which we carry as an opaque pure `Nat → Nat` field,
    and `cpuWrite`, whose effect is outside the modelled state (no claim
    exercises cartridge writes).
-/

namespace Nexus

/-! ## Controllers (`input.js`, class `Controller` / class `Input`) -/

/-- The eight NES buttons, fields in the source's declaration order
`{A, B, Select, Start, Up, Down, Left, Right}` (stored as 0/1 numbers in the
source; `Bool` here, converted by `bitv`). -/
structure Buttons where
  a : Bool
  b : Bool
  select : Bool
  start : Bool
  up : Bool
  down : Bool
  left : Bool
  right : Bool
deriving DecidableEq, Repr

/-- Expression `b ? 1 : 0` as used throughout `Controller.reload`/`read`. -/
def bitv (x : Bool) : Nat := if x then 1 else 0

/-- State of one `Controller` (the key/gamepad mapping fields are host-side
configuration and play no role in the strobe/shift semantics). -/
structure Controller where
  buttons : Buttons
  strobe : Nat
  shiftRegister : Nat
deriving DecidableEq, Repr

/-- The byte `Controller.reload()` latches: A in bit 0 through Right in
bit 7. -/
def Buttons.latched (b : Buttons) : Nat :=
  bitv b.a ||| (bitv b.b <<< 1) |||
    (bitv b.select <<< 2) ||| (bitv b.start <<< 3) |||
    (bitv b.up <<< 4) ||| (bitv b.down <<< 5) |||
    (bitv b.left <<< 6) ||| (bitv b.right <<< 7)

/-- Method `Controller.reload()`: latch the current buttons into the shift
register. -/
def Controller.reload (c : Controller) : Controller :=
  { c with shiftRegister := c.buttons.latched }

/-- Method `Controller.write(value)`: set `strobe = value & 1`; while the strobe is
raised the shift register is reloaded from the live buttons. -/
def Controller.write (c : Controller) (value : Nat) : Controller :=
  let c := { c with strobe := value &&& 1 }
  if c.strobe ≠ 0 then c.reload else c

/-- Method `Controller.read()`: with the strobe raised return the live A button;
otherwise shift out bit 0 (the register refills with zeros, since the source
uses a plain `>>= 1`).  Either way the result is ORed with 0x40. -/
def Controller.read (c : Controller) : Nat × Controller :=
  if c.strobe ≠ 0 then
    (bitv c.buttons.a ||| 0x40, c)
  else
    ((c.shiftRegister &&& 1) ||| 0x40, { c with shiftRegister := c.shiftRegister >>> 1 })

/-- Class `Input`: the two controller ports. -/
structure Input where
  player1 : Controller
  player2 : Controller
deriving DecidableEq, Repr

/-- Method `Input.write(addr, value)`: a write to 0x4016 strobes both ports; any
other address (including 0x4017) is ignored. -/
def Input.write (i : Input) (addr value : Nat) : Input :=
  if addr = 0x4016 then
    { player1 := i.player1.write value, player2 := i.player2.write value }
  else i

/-- Method `Input.read(addr)`: 0x4016 reads port 1, 0x4017 reads port 2, anything
else returns 0. -/
def Input.read (i : Input) (addr : Nat) : Nat × Input :=
  if addr = 0x4016 then
    let r := i.player1.read
    (r.1, { i with player1 := r.2 })
  else if addr = 0x4017 then
    let r := i.player2.read
    (r.1, { i with player2 := r.2 })
  else (0, i)

/-! ## PPU (`ppu.js` document inside `input.js`) -/

/-- State of class `PPU`.  `vram` and `oam` are the `Uint8Array(0x4000)` and
`Uint8Array(256)`; `chrROM` is the CHR data handed to the constructor.  The
canvas context and RGBA frame buffer are host-side output and are not part of
the modelled state. -/
structure PPU where
  ctrl : Nat
  mask : Nat
  status : Nat
  oamAddr : Nat
  scrollX : Nat
  scrollY : Nat
  addr : Nat
  data : Nat
  vram : Nat → Nat
  oam : Nat → Nat
  cycle : Nat
  scanline : Nat
  fineX : Nat
  writeToggle : Nat
  tempAddr : Nat
  vramAddr : Nat
  sprite0Hit : Bool
  chrROM : Nat → Nat

/-- Method `PPU.performDMA(page)`: the source copies `this.cpuMemory[base+i]` into
OAM — but `cpuMemory` is the `Memory` object, not an array, so every indexed
load yields `undefined`, which the `Uint8Array` store coerces to 0: the loop
fills OAM[0..255] with zeros.  (This method is unreachable through the bus:
see `Memory.write`, which routes 0x4014 to the APU and hands the PPU only
`addr % 8`.) -/
def PPU.performDMA (p : PPU) (_page : Nat) : PPU :=
  { p with oam := fun i => if i < 256 then 0 else p.oam i }

/-- Method `PPU.readRegister(addr)`: the source switches on the full register
addresses 0x2002/0x2007; any other value falls through to `return 0`. -/
def PPU.readRegister (p : PPU) (addr : Nat) : Nat × PPU :=
  if addr = 0x2002 then
    (p.status, { p with status := p.status &&& 0x7F, writeToggle := 0 })
  else if addr = 0x2007 then
    let patternTableAddr := p.vramAddr &&& 0x1FFF
    let d := if patternTableAddr < 0x2000 then p.chrROM patternTableAddr
             else p.vram (p.vramAddr &&& 0x3FFF)
    (d, { p with vramAddr := p.vramAddr + (if p.ctrl &&& 0x04 ≠ 0 then 32 else 1) })
  else (0, p)

/-- Method `PPU.writeRegister(addr, value)`: switches on the full addresses
0x2000–0x2007 and 0x4014; any other value matches no case and the state is
untouched. -/
def PPU.writeRegister (p : PPU) (addr value : Nat) : PPU :=
  if addr = 0x2000 then { p with ctrl := value }
  else if addr = 0x2001 then { p with mask := value }
  else if addr = 0x2003 then { p with oamAddr := value }
  else if addr = 0x2004 then
    { p with oam := fun i => if i = p.oamAddr ∧ i < 256 then value % 256 else p.oam i,
             oamAddr := p.oamAddr + 1 }
  else if addr = 0x2005 then
    if p.writeToggle = 0 then
      { p with fineX := value &&& 7,
               tempAddr := (p.tempAddr &&& 0x7FE0) ||| (value >>> 3),
               writeToggle := 1 }
    else
      { p with tempAddr := (p.tempAddr &&& 0x0C1F) ||| ((value &&& 0xF8) <<< 2) |||
                           ((value &&& 7) <<< 12),
               writeToggle := 0 }
  else if addr = 0x2006 then
    if p.writeToggle = 0 then
      { p with tempAddr := (p.tempAddr &&& 0x00FF) ||| (value <<< 8), writeToggle := 1 }
    else
      let t := (p.tempAddr &&& 0xFF00) ||| value
      { p with tempAddr := t, vramAddr := t, writeToggle := 0 }
  else if addr = 0x2007 then
    { p with vram := fun i => if i = p.vramAddr &&& 0x3FFF then value % 256 else p.vram i,
             vramAddr := p.vramAddr + (if p.ctrl &&& 0x04 ≠ 0 then 32 else 1) }
  else if addr = 0x4014 then
    p.performDMA value
  else p

/-! ## APU and DMC (`apu.js`) -/

/-- State of class `DMCChannel`.  `irqEnabled`, `loop`, `rate` and
`currentAddress`/`sampleBuffer` are only created by the first 0x4010 write /
`restartSample` / fetch in the source (JS `undefined` before that, which is
falsy / never read before being set); they start here as `false`/0. -/
structure DMCChannel where
  enabled : Bool
  dmcIRQ : Bool
  irqEnabled : Bool
  loop : Bool
  rate : Nat
  sampleAddress : Nat
  sampleLength : Nat
  currentAddress : Nat
  currentLength : Nat
  shiftRegister : Nat
  bitsRemaining : Nat
  bufferEmpty : Bool
  sampleBuffer : Nat
  outputLevel : Nat

/-- Method `DMCChannel.write(addr, value)` for 0x4010–0x4013. -/
def DMCChannel.write (d : DMCChannel) (addr value : Nat) : DMCChannel :=
  if addr = 0x4010 then
    { d with irqEnabled := value &&& 0x80 ≠ 0, loop := value &&& 0x40 ≠ 0,
             rate := value &&& 0x0F }
  else if addr = 0x4011 then
    { d with outputLevel := value &&& 0x7F }
  else if addr = 0x4012 then
    { d with sampleAddress := 0xC000 + value * 64 }
  else if addr = 0x4013 then
    { d with sampleLength := value * 16 + 1 }
  else d

/-- Method `DMCChannel.restartSample()`. -/
def DMCChannel.restartSample (d : DMCChannel) : DMCChannel :=
  { d with currentAddress := d.sampleAddress, currentLength := d.sampleLength }

/-- Method `DMCChannel.setEnabled(on)`: used by the APU's 0x4015 handler. -/
def DMCChannel.setEnabled (d : DMCChannel) (en : Bool) : DMCChannel :=
  let d := { d with enabled := en }
  if d.enabled ∧ d.currentLength = 0 then d.restartSample else d

/-- The shift phase of `DMCChannel.step()`: one sample bit moves the 7-bit
output level by +2 (if it would stay ≤ 127, i.e. current level ≤ 125) or −2
(if the current level is ≥ 2), otherwise leaves it alone. -/
def DMCChannel.shiftPhase (d : DMCChannel) : DMCChannel :=
  let lvl := if d.shiftRegister &&& 1 ≠ 0 then
               (if d.outputLevel ≤ 125 then d.outputLevel + 2 else d.outputLevel)
             else
               (if 2 ≤ d.outputLevel then d.outputLevel - 2 else d.outputLevel)
  { d with outputLevel := lvl, shiftRegister := d.shiftRegister >>> 1,
           bitsRemaining := d.bitsRemaining - 1 }

/-- Frame-counter part of the APU state (class `APU`); the pulse, triangle
and noise channels carry only their `enabled` flag (their `write` methods are
empty stubs in the source, and their Web Audio nodes are host output). -/
structure APU where
  pulse1Enabled : Bool
  pulse2Enabled : Bool
  triangleEnabled : Bool
  noiseEnabled : Bool
  dmc : DMCChannel
  cycles : Nat
  frameStep : Nat
  frameCounterMode : Nat
  frameIRQ : Bool

/-- Method `APU.stepFrameCounter()`. -/
def APU.stepFrameCounter (a : APU) : APU :=
  if a.frameCounterMode = 0 then
    let a := { a with frameStep := (a.frameStep + 1) % 4 }
    if a.frameStep = 3 then { a with frameIRQ := true } else a
  else
    { a with frameStep := (a.frameStep + 1) % 5 }

/-- Method `APU.setChannelEnable(value)` (the 0x4015 write). -/
def APU.setChannelEnable (a : APU) (value : Nat) : APU :=
  { a with pulse1Enabled := value &&& 1 ≠ 0,
           pulse2Enabled := value &&& 2 ≠ 0,
           triangleEnabled := value &&& 4 ≠ 0,
           noiseEnabled := value &&& 8 ≠ 0,
           dmc := a.dmc.setEnabled (value &&& 16 ≠ 0) }

/-- Method `APU.write(addr, value)`: the APU-side register decode.  The pulse,
triangle and noise `write` methods are empty (`// TODO`) in the source, so
those ranges change nothing.  Note there is no case for 0x4014. -/
def APU.write (a : APU) (addr value : Nat) : APU :=
  if 0x4000 ≤ addr ∧ addr ≤ 0x4003 then a
  else if 0x4004 ≤ addr ∧ addr ≤ 0x4007 then a
  else if 0x4008 ≤ addr ∧ addr ≤ 0x400B then a
  else if 0x400C ≤ addr ∧ addr ≤ 0x400F then a
  else if 0x4010 ≤ addr ∧ addr ≤ 0x4013 then { a with dmc := a.dmc.write addr value }
  else if addr = 0x4015 then a.setChannelEnable value
  else if addr = 0x4017 then
    let a := { a with frameCounterMode := (value >>> 7) &&& 1 }
    if value &&& 0x40 ≠ 0 then { a with frameIRQ := false } else a
  else a

/-- Method `APU.read(addr)`: only 0x4015 is decoded (channel-enable status byte;
reading clears the frame IRQ); everything else returns 0. -/
def APU.read (a : APU) (addr : Nat) : Nat × APU :=
  if addr = 0x4015 then
    ((if a.pulse1Enabled then 1 else 0) ||| (if a.pulse2Enabled then 2 else 0) |||
     (if a.triangleEnabled then 4 else 0) ||| (if a.noiseEnabled then 8 else 0) |||
     (if a.dmc.enabled then 16 else 0),
     { a with frameIRQ := false })
  else (0, a)

/-! ## Memory bus (`memory.js`, class `Memory`) -/

/-- State of class `Memory`: the 2 KiB internal RAM plus the components the
bus routes to.  `cart` is the cartridge's `cpuRead` (the cartridge source is
not part of this repository; the bus treats it as an opaque byte source). -/
structure Memory where
  ram : Nat → Nat
  ppu : PPU
  apu : APU
  controllers : Input
  cart : Nat → Nat

/-- Method `Memory.read(addr)`: wrap to 16 bits, then decode: RAM with 2 KiB
mirroring below 0x2000; PPU registers below 0x4000 (the PPU handler receives
`addr % 8`); the controller ports at 0x4016/0x4017; the APU/IO register file
below 0x4020 (the source calls `apu.readRegister`, a method `apu.js` does
not define — the register decode it evidently addresses is `APU.read`, used
here); the cartridge from 0x4020 up.  The trailing open-bus `return 0` is
unreachable after the 16-bit wrap. -/
def Memory.read (m : Memory) (addr : Nat) : Nat × Memory :=
  let addr := addr &&& 0xFFFF
  if addr < 0x2000 then
    (m.ram (addr % 0x0800), m)
  else if addr < 0x4000 then
    let r := m.ppu.readRegister (addr % 8)
    (r.1, { m with ppu := r.2 })
  else if addr = 0x4016 ∨ addr = 0x4017 then
    let r := m.controllers.read addr
    (r.1, { m with controllers := r.2 })
  else if 0x4000 ≤ addr ∧ addr < 0x4020 then
    let r := m.apu.read addr
    (r.1, { m with apu := r.2 })
  else if 0x4020 ≤ addr then
    (m.cart addr, m)
  else (0, m)

/-- Method `Memory.write(addr, value)`: wrap address and value, then decode: RAM
below 0x2000; PPU registers below 0x4000 (handler receives `addr % 8`);
0x4016/0x4017 strobe the controllers; the rest of 0x4000–0x401F — including
0x4014 — goes to the APU register decode (the source calls
`apu.writeRegister`, a method `apu.js` does not define; the decode it
evidently addresses is `APU.write`, used here); 0x4020 and up is the
cartridge's `cpuWrite`, outside the modelled state. -/
def Memory.write (m : Memory) (addr value : Nat) : Memory :=
  let addr := addr &&& 0xFFFF
  let value := value &&& 0xFF
  if addr < 0x2000 then
    { m with ram := fun i => if i = addr % 0x0800 then value else m.ram i }
  else if addr < 0x4000 then
    { m with ppu := m.ppu.writeRegister (addr % 8) value }
  else if 0x4000 ≤ addr ∧ addr < 0x4020 then
    if addr = 0x4016 ∨ addr = 0x4017 then
      { m with controllers := m.controllers.write addr value }
    else
      { m with apu := m.apu.write addr value }
  else m

/-! ## CPU (`cpu.js`, class `CPU`) -/

/-- CPU registers (class fields).  The constructor's `cycles` counter is
never read or written by any method and is omitted. -/
structure CPU where
  A : Nat
  X : Nat
  Y : Nat
  SP : Nat
  PC : Nat
  status : Nat

/-- Method `CPU.FLAGS` constants. -/
def CPU.flagC : Nat := 1
/-- Zero flag bit. -/
def CPU.flagZ : Nat := 2
/-- Interrupt-disable flag bit. -/
def CPU.flagI : Nat := 4
/-- Decimal flag bit. -/
def CPU.flagD : Nat := 8
/-- Break flag bit. -/
def CPU.flagB : Nat := 16
/-- Unused flag bit. -/
def CPU.flagU : Nat := 32
/-- Overflow flag bit. -/
def CPU.flagV : Nat := 64
/-- Negative flag bit. -/
def CPU.flagN : Nat := 128

/-- Method `CPU.setFlag(flag, value)`: OR the bit in, or AND it out with the 32-bit
complement `~flag` of the JS bitwise NOT. -/
def CPU.setFlag (c : CPU) (flag : Nat) (value : Bool) : CPU :=
  if value then { c with status := c.status ||| flag }
  else { c with status := c.status &&& (0xFFFFFFFF ^^^ flag) }

/-- Method `CPU.readWord(addr)`: little-endian 16-bit read, low byte first, through
the bus (each byte read threads the bus state). -/
def CPU.readWord (m : Memory) (addr : Nat) : Nat × Memory :=
  let rl := m.read addr
  let rh := rl.2.read (addr + 1)
  ((rh.1 <<< 8) ||| rl.1, rh.2)

/-- Method `CPU.reset()`: zero A/X/Y, SP = 0xFD, status = 0x24 (I and U set), and
load PC from the reset vector at 0xFFFC through the bus. -/
def CPU.reset (c : CPU) (m : Memory) : CPU × Memory :=
  let r := CPU.readWord m 0xFFFC
  ({ c with A := 0, X := 0, Y := 0, SP := 0xFD, status := 0x24, PC := r.1 }, r.2)

/-- Method `CPU.execute(opcode)` — the decode inside the class body: LDA immediate
(0xA9), TAX (0xAA), INX (0xE8); every other opcode hits the default case,
logs a console warning (host output) and returns 2 cycles with no state
change.  Returns (cycles, cpu, bus). -/
def CPU.execute (c : CPU) (m : Memory) (opcode : Nat) : Nat × CPU × Memory :=
  if opcode = 0xA9 then
    let r := m.read c.PC
    let m := r.2
    let c := { c with PC := c.PC + 1, A := r.1 }
    let c := c.setFlag CPU.flagZ (c.A = 0)
    let c := c.setFlag CPU.flagN (c.A &&& 0x80 ≠ 0)
    (2, c, m)
  else if opcode = 0xAA then
    let c := { c with X := c.A }
    let c := c.setFlag CPU.flagZ (c.X = 0)
    let c := c.setFlag CPU.flagN (c.X &&& 0x80 ≠ 0)
    (2, c, m)
  else if opcode = 0xE8 then
    let c := { c with X := (c.X + 1) &&& 0xFF }
    let c := c.setFlag CPU.flagZ (c.X = 0)
    let c := c.setFlag CPU.flagN (c.X &&& 0x80 ≠ 0)
    (2, c, m)
  else
    (2, c, m)

/-- The opcodes class `CPU`'s `execute` decodes; everything else falls to the
2-cycle default case. -/
def CPU.implemented (opcode : Nat) : Prop :=
  opcode = 0xA9 ∨ opcode = 0xAA ∨ opcode = 0xE8

instance (opcode : Nat) : Decidable (CPU.implemented opcode) := by
  unfold CPU.implemented; infer_instance

/-- Method `CPU.step()`: fetch the opcode at PC (post-incrementing PC), then
execute it.  Returns the consumed cycles with the new CPU and bus states. -/
def CPU.step (c : CPU) (m : Memory) : Nat × CPU × Memory :=
  let r := m.read c.PC
  CPU.execute { c with PC := c.PC + 1 } r.2 r.1

/-- Method `push(value)` from the loose helper fragments after the class body:
store at 0x0100+SP and decrement SP.  (JS lets SP go to −1; on the runs
modelled here SP stays positive, and `Nat` subtraction truncates at 0.) -/
def CPU.push (c : CPU) (m : Memory) (value : Nat) : CPU × Memory :=
  (⟨c.A, c.X, c.Y, c.SP - 1, c.PC, c.status⟩, m.write (0x0100 + c.SP) value)

/-- Method `pushWord(value)`: high byte first. -/
def CPU.pushWord (c : CPU) (m : Memory) (value : Nat) : CPU × Memory :=
  let r := c.push m ((value >>> 8) &&& 0xFF)
  r.1.push r.2 (value &&& 0xFF)

/-- Method `nmi()` from the helper fragments: push PC and status, set I, vector to
0xFFFA. -/
def CPU.nmi (c : CPU) (m : Memory) : CPU × Memory :=
  let r1 := c.pushWord m c.PC
  let r2 := r1.1.push r1.2 r1.1.status
  let c := r2.1.setFlag CPU.flagI true
  let rv := CPU.readWord r2.2 0xFFFA
  ({ c with PC := rv.1 }, rv.2)

/-- Method `irq()` from the helper fragments: serviced only with the I flag clear;
push PC and status, set I, vector to 0xFFFE.  (The method takes no level
argument — the `Emulator` passes one, which JS discards.) -/
def CPU.irq (c : CPU) (m : Memory) : CPU × Memory :=
  if c.status &&& CPU.flagI = 0 then
    let r1 := c.pushWord m c.PC
    let r2 := r1.1.push r1.2 r1.1.status
    let c := r2.1.setFlag CPU.flagI true
    let rv := CPU.readWord r2.2 0xFFFE
    ({ c with PC := rv.1 }, rv.2)
  else (c, m)

/-! ## Bus-level DMC stepping (`DMCChannel.step`/`fetchSample`)

`DMCChannel.fetchSample` reads sample bytes through the shared `Memory`
object (`this.memory.read`), so its faithful embedding acts on the whole bus
state.  The bus read can itself update bus components (e.g. a 0x4015 read
clears the frame IRQ) but never the DMC fields, so threading the DMC record
alongside the bus is sound. -/

/-- Method `DMCChannel.fetchSample()`: pull the next sample byte through the bus,
advance (and wrap) the address, and on exhausting the sample either restart
it (loop flag) or raise the DMC IRQ (if enabled). -/
def DMCChannel.fetchSample (m : Memory) (d : DMCChannel) : Memory × DMCChannel :=
  if d.currentLength > 0 then
    let r := m.read d.currentAddress
    let m := r.2
    let d := { d with sampleBuffer := r.1 }
    let d := { d with currentAddress :=
                 if d.currentAddress + 1 > 0xFFFF then 0x8000 else d.currentAddress + 1 }
    let d := { d with currentLength := d.currentLength - 1, bufferEmpty := false }
    if d.currentLength = 0 then
      if d.loop then (m, d.restartSample)
      else if d.irqEnabled then (m, { d with dmcIRQ := true })
      else (m, d)
    else (m, d)
  else (m, d)

/-- Method `DMCChannel.step()`: when idle and enabled, refill the shift register
(fetching a byte if the buffer is empty), then shift one bit out through
`shiftPhase`. -/
def DMCChannel.stepBus (m : Memory) : Memory :=
  let d := m.apu.dmc
  if ¬ d.enabled then m
  else
    let r :=
      if d.bitsRemaining = 0 then
        let r0 := if d.bufferEmpty then DMCChannel.fetchSample m d else (m, d)
        if ¬ r0.2.bufferEmpty then
          (r0.1, { r0.2 with shiftRegister := r0.2.sampleBuffer, bitsRemaining := 8,
                             bufferEmpty := true })
        else r0
      else (m, d)
    let d := if r.2.bitsRemaining > 0 then r.2.shiftPhase else r.2
    { r.1 with apu := { r.1.apu with dmc := d } }

/-- Method `APU.step()`: bump the cycle counter, clock the frame sequencer every
7457 CPU cycles, and tick the DMC (which may fetch through the bus). -/
def APU.step (m : Memory) : Memory :=
  let a := { m.apu with cycles := m.apu.cycles + 1 }
  let a := if a.cycles % 7457 = 0 then a.stepFrameCounter else a
  DMCChannel.stepBus { m with apu := a }

/-! ## Emulator / scheduler (`emulator.js` document inside `apu.js`)

Class `Emulator` drives pluggable components: its header documents the
interface it expects (`ppu.step() -> { newFrame }`, `cpu.connectBus`,
`apu.reset(sampleRate)`, ...).  This repository's own components do not
satisfy that interface, and the mismatches are JS runtime errors, not
silent defaults:
  * the repository `PPU.step()` has no return statement, so it returns
    `undefined`, and the scheduler's destructuring
    `const { newFrame } = this.ppu.step()` throws a TypeError on it;
  * the `Emulator` constructor itself calls `cpu.connectBus(bus)` and
    `apu.reset(sampleRate)`, methods the repository CPU and APU do not
    define, so with these components even construction throws.
The embedding below therefore models the wired `runFrame` in an error
monad, `Except JsError`: each JS step that would throw produces
`Except.error`, which propagates out of `run_frame` exactly as the
uncaught exception does.  The scanline-241 `renderFrame()` call inside
`PPU.step` draws through the host canvas (with the source's placeholder
empty `palette` array it throws a TypeError at the first drawn pixel); its
behaviour is kept as an explicit parameter `renderF`, and every theorem
below is proved for all values of that parameter, so no conclusion depends
on the unmodelled drawing code. -/

/-- A JavaScript runtime error (the kind these wirings raise). -/
inductive JsError where
  | typeError (msg : String)
deriving DecidableEq, Repr

/-- The TypeError raised by destructuring the `undefined` return value of
`ppu.step()` in the scheduler loop. -/
def Emulator.newFrameTypeError : JsError :=
  JsError.typeError "cannot destructure property newFrame of undefined"

/-- Method `PPU.step()`: advance one dot; on dot wrap advance the scanline;
entering scanline 241 set the VBlank bit and call `renderFrame()` — kept as
the parameter `renderF`, which may itself throw; when the scanline counter
reaches 262, reset it and clear the VBlank bit.  The method body contains
no return statement, so its JS return value is `undefined`: the first
component of every `ok` result is `none` (`some b` would be a returned
object carrying `newFrame = b`, the shape the scheduler's documented
interface expects). -/
def PPU.stepWith (renderF : PPU → Except JsError PPU) (p : PPU) :
    Except JsError (Option Bool × PPU) :=
  let c := p.cycle + 1
  if c > 340 then
    let p := { p with cycle := 0, scanline := p.scanline + 1 }
    match (if p.scanline = 241 then renderF { p with status := p.status ||| 0x80 }
           else Except.ok p) with
    | Except.error e => Except.error e
    | Except.ok p =>
      if p.scanline ≥ 262 then
        Except.ok (none, { p with scanline := 0, status := p.status &&& 0x7F })
      else Except.ok (none, p)
  else Except.ok (none, { p with cycle := c })

/-- The record `runFrame` returns on normal exit: cpuCyclesRun,
ppuCyclesRun, framesCompleted, frameIndex — and nothing else. -/
structure FrameStats where
  cpuCyclesRun : Nat
  ppuCyclesRun : Nat
  framesCompleted : Nat
  frameIndex : Nat
deriving DecidableEq, Repr

/-- The machine state shared by the wired components: the CPU registers and
the bus (which owns the PPU, APU and controllers). -/
structure EmuState where
  cpu : CPU
  mem : Memory

/-- One scheduler PPU tick: run the PPU dot (which may throw inside
`renderFrame`), then destructure its return value into `newFrame` — with
this repository's PPU the value is always `undefined`, so the destructure
always throws; the conforming-object case (`some`) is translated for
completeness, including the `_serviceNMI()` edge sampling that follows it
(`ppu.nmiLine` is a property the repository PPU does not define, hence the
sampled level is `false`). -/
def Emulator.ppuTickE (renderF : PPU → Except JsError PPU) (st : EmuState)
    (prev : Bool) : Except JsError (Bool × EmuState × Bool) :=
  match PPU.stepWith renderF st.mem.ppu with
  | Except.error e => Except.error e
  | Except.ok r =>
    match r.1 with
    | none => Except.error Emulator.newFrameTypeError
    | some newFrame =>
      let st : EmuState := ⟨st.cpu, { st.mem with ppu := r.2 }⟩
      let level := false
      let st := if level ∧ ¬ prev then
                  let rn := st.cpu.nmi st.mem
                  (⟨rn.1, rn.2⟩ : EmuState)
                else st
      Except.ok (newFrame, st, level)

/-- The inner `for i in 0..3*c` loop of `runFrame`: tick the PPU, count the
tick, and count completed frames; a thrown error propagates.  On normal
exit returns (state, nmi-previous level, frames completed, ticks run). -/
def Emulator.ppuBatchE (renderF : PPU → Except JsError PPU) :
    Nat → EmuState → Bool → Except JsError (EmuState × Bool × Nat × Nat)
  | 0, st, prev => Except.ok (st, prev, 0, 0)
  | n + 1, st, prev =>
    match Emulator.ppuTickE renderF st prev with
    | Except.error e => Except.error e
    | Except.ok t =>
      match Emulator.ppuBatchE renderF n t.2.1 t.2.2 with
      | Except.error e => Except.error e
      | Except.ok b =>
        Except.ok (b.1, b.2.1, (if t.1 then 1 else 0) + b.2.2.1, 1 + b.2.2.2)

/-- One iteration of the `runFrame` while-loop: `cpu.step()` (the
repository method, which always completes), then 3·c PPU ticks, then
`apu.step(c)` (the repository APU's zero-argument `step()`; JS discards
the extra argument), the audio pump (inert: it is guarded on
`apu.needSample`, a property this APU lacks) and `_serviceIRQ()`
(`apu.irqLine`, `bus.mapper` and `bus.irqLine` are all absent, hence level
`false` — and the repository `irq()` ignores its argument anyway).  On
normal exit returns (cycles, ticks, frames, state, nmi-previous). -/
def Emulator.frameIterE (renderF : PPU → Except JsError PPU) (st : EmuState)
    (prev : Bool) : Except JsError (Nat × Nat × Nat × EmuState × Bool) :=
  let r := st.cpu.step st.mem
  match Emulator.ppuBatchE renderF (3 * r.1) ⟨r.2.1, r.2.2⟩ prev with
  | Except.error e => Except.error e
  | Except.ok b =>
    let st : EmuState := ⟨b.1.cpu, APU.step b.1.mem⟩
    let ri := st.cpu.irq st.mem
    Except.ok (r.1, b.2.2.2, b.2.2.1, ⟨ri.1, ri.2⟩, b.2.1)

/-- The `runFrame` while-loop.  The JS guard is `framesCompleted === 0 &&
cpuCyclesRun < cpuCyclesTarget` with `cpuCyclesTarget = CPU_HZ / FPS =
1789773 / 60` (≈ 29829.55); for an integer cycle count that float
comparison is exactly `60 * cpuCyclesRun < 1789773` (the float64 value of
1789773/60 lies strictly between 29829 and 29830, so no integer comparison
is perturbed).  The JS loop has no bound of its own; `fuel` bounds the
recursion. -/
def Emulator.runFrameLoopE (renderF : PPU → Except JsError PPU) :
    Nat → EmuState → Bool → Nat → Nat → Nat →
    Except JsError (EmuState × Bool × Nat × Nat × Nat)
  | 0, st, prev, ccr, ppr, fc => Except.ok (st, prev, ccr, ppr, fc)
  | fuel + 1, st, prev, ccr, ppr, fc =>
    if fc = 0 ∧ 60 * ccr < 1789773 then
      match Emulator.frameIterE renderF st prev with
      | Except.error e => Except.error e
      | Except.ok it =>
        Emulator.runFrameLoopE renderF fuel it.2.2.2.1 it.2.2.2.2 (ccr + it.1)
          (ppr + it.2.1) (fc + it.2.2.1)
    else Except.ok (st, prev, ccr, ppr, fc)

/-- Loop bound: ample for the JS loop's own exit condition (every
repository instruction costs 2 cycles, so at most 14915 iterations could
ever run before the cycle target closes the guard). -/
def Emulator.fuelNexus : Nat := 29830

/-- Method `Emulator.runFrame()` in the NTSC region, wired to this
repository's components: run the loop from zeroed counters; on normal exit
build the stats record and advance `_frameCounter`; a thrown error
propagates out of the call and nothing is returned.  (With these
components the `Emulator` constructor itself would already have thrown on
the missing `cpu.connectBus` / `apu.reset` methods; the model starts at
the `runFrame` body.) -/
def Emulator.runFrameNexus (renderF : PPU → Except JsError PPU)
    (st : EmuState) (nmiPrev : Bool) (frameCounter : Nat) :
    Except JsError (FrameStats × EmuState × Bool × Nat) :=
  match Emulator.runFrameLoopE renderF Emulator.fuelNexus st nmiPrev 0 0 0 with
  | Except.error e => Except.error e
  | Except.ok r =>
    Except.ok (⟨r.2.2.1, r.2.2.2.1, r.2.2.2.2, frameCounter + r.2.2.2.2⟩,
      r.1, r.2.1, frameCounter + r.2.2.2.2)

/-- Observer: did a call return normally (`true`) or throw (`false`)? -/
def Emulator.returned {α : Type} : Except JsError α → Bool
  | Except.ok _ => true
  | Except.error _ => false

/-- Observer: the thrown error's message, when the call threw. -/
def Emulator.thrownMsg {α : Type} : Except JsError α → Option String
  | Except.error (JsError.typeError m) => some m
  | Except.ok _ => none

/-- A vacuous instantiation of the rendering parameter (draw nothing,
return normally), used only to evaluate the wired emulator at concrete
inputs; every theorem about the wired emulator holds for all
instantiations of the parameter. -/
def renderNoop : PPU → Except JsError PPU := fun p => Except.ok p

/-! ## Constructor states and concrete fixtures -/

/-- All buttons released. -/
def Buttons.init : Buttons := ⟨false, false, false, false, false, false, false, false⟩

/-- Constructor state: `Controller` constructor state: no strobe, empty shift register. -/
def Controller.init : Controller := ⟨Buttons.init, 0, 0⟩

/-- Constructor state: `Input` constructor state: two fresh controllers. -/
def Input.init : Input := ⟨Controller.init, Controller.init⟩

/-- Constructor state: `PPU` constructor state (all registers/latches zero, zeroed VRAM/OAM),
for CHR data `chr`. -/
def PPU.init (chr : Nat → Nat) : PPU :=
  { ctrl := 0, mask := 0, status := 0, oamAddr := 0, scrollX := 0, scrollY := 0,
    addr := 0, data := 0, vram := fun _ => 0, oam := fun _ => 0, cycle := 0,
    scanline := 0, fineX := 0, writeToggle := 0, tempAddr := 0, vramAddr := 0,
    sprite0Hit := false, chrROM := chr }

/-- Constructor state: `DMCChannel` constructor state (fields the constructor leaves undefined
start as `false`/0; see the structure's docstring). -/
def DMCChannel.init : DMCChannel :=
  { enabled := false, dmcIRQ := false, irqEnabled := false, loop := false,
    rate := 0, sampleAddress := 0xC000, sampleLength := 1, currentAddress := 0,
    currentLength := 0, shiftRegister := 0, bitsRemaining := 0,
    bufferEmpty := true, sampleBuffer := 0, outputLevel := 64 }

/-- Constructor state: `APU` constructor state. -/
def APU.init : APU :=
  { pulse1Enabled := false, pulse2Enabled := false, triangleEnabled := false,
    noiseEnabled := false, dmc := DMCChannel.init, cycles := 0, frameStep := 0,
    frameCounterMode := 0, frameIRQ := false }

/-- Constructor state: `Memory` constructor/`reset()` state (zeroed RAM, fresh components) over
a cartridge `cpuRead` map `cart`, with zeroed CHR data. -/
def Memory.init (cart : Nat → Nat) : Memory :=
  { ram := fun _ => 0, ppu := PPU.init fun _ => 0, apu := APU.init,
    controllers := Input.init, cart := cart }

/-- Constructor state: `CPU` constructor state. -/
def CPU.init : CPU := ⟨0, 0, 0, 0xFD, 0, 0x24⟩

/-- A machine booted from the constructor states over cartridge `cart`,
after `cpu.reset()` (so PC holds the cartridge's reset vector). -/
def EmuState.boot (cart : Nat → Nat) : EmuState :=
  let m := Memory.init cart
  let r := CPU.init.reset m
  ⟨r.1, r.2⟩

/-- A freshly constructed bus over an all-zero cartridge, used as the
concrete machine in witnesses and counterexamples. -/
def memZero : Memory := Memory.init fun _ => 0

/-- Sequence helper: `n` consecutive bus reads of address `addr`, collecting the returned
bytes in order (used to phrase the controller shift sequence of 0x4016). -/
def Memory.readSeq (addr : Nat) : Nat → Memory → List Nat × Memory
  | 0, m => ([], m)
  | n + 1, m =>
    let r := m.read addr
    let rest := Memory.readSeq addr n r.2
    (r.1 :: rest.1, rest.2)

/-- Sequence helper: `n` consecutive `Controller.read()` calls on one port, collecting the
returned bytes in order. -/
def Controller.readSeq : Nat → Controller → List Nat × Controller
  | 0, c => ([], c)
  | n + 1, c =>
    let r := c.read
    let rest := Controller.readSeq n r.2
    (r.1 :: rest.1, rest.2)

/-- The bit-0 latch order the controller shifts out: A, B, Select, Start,
Up, Down, Left, Right, each value ORed with the 0x40 open-bus pattern. -/
def Buttons.readValues (b : Buttons) : List Nat :=
  [bitv b.a ||| 0x40, bitv b.b ||| 0x40, bitv b.select ||| 0x40,
   bitv b.start ||| 0x40, bitv b.up ||| 0x40, bitv b.down ||| 0x40,
   bitv b.left ||| 0x40, bitv b.right ||| 0x40]

/-- An operation sequence for the DMC channel as the claim quantifies it:
a bus register write (`Memory.write`) or a `DMCChannel.step()` tick. -/
inductive DMCOp where
  | regWrite (addr value : Nat)
  | tick

/-- Apply a sequence of `DMCOp`s to the machine. -/
def DMCOp.applyOps : List DMCOp → Memory → Memory
  | [], m => m
  | DMCOp.regWrite a v :: rest, m => DMCOp.applyOps rest (m.write a v)
  | DMCOp.tick :: rest, m => DMCOp.applyOps rest (DMCChannel.stepBus m)

/-! ## Helper lemmas -/

/-- Bitmask fact: `n & 0xFFFF` is reduction mod 2^16 (the JS 16-bit address wrap). -/
theorem and_ffff (n : Nat) : n &&& 0xFFFF = n % 0x10000 :=
  Nat.and_pow_two_sub_one_eq_mod n 16

/-- Bitmask fact: `n & 7` is reduction mod 8 (the PPU register index the bus computes). -/
theorem and_seven (n : Nat) : n &&& 7 = n % 8 :=
  Nat.and_pow_two_sub_one_eq_mod n 3

/-- Bitmask fact: `n & 0xFF` is reduction mod 256 (the byte mask). -/
theorem and_ff (n : Nat) : n &&& 0xFF = n % 0x100 :=
  Nat.and_pow_two_sub_one_eq_mod n 8

/-- Bitmask fact: `n & 0x7F` is reduction mod 128 (the DMC level mask). -/
theorem and_7f (n : Nat) : n &&& 0x7F = n % 0x80 :=
  Nat.and_pow_two_sub_one_eq_mod n 7

/-- A register index below 8 (which is all the bus ever passes) matches no
case of `PPU.readRegister`: the read returns 0 and leaves the PPU alone. -/
theorem PPU.readRegister_low (p : PPU) (r : Nat) (h : r < 8) :
    p.readRegister r = (0, p) := by
  unfold PPU.readRegister
  split_ifs <;> first
    | rfl
    | omega

/-- A register index below 8 matches no case of `PPU.writeRegister`: the
write changes nothing. -/
theorem PPU.writeRegister_low (p : PPU) (r v : Nat) (h : r < 8) :
    p.writeRegister r v = p := by
  unfold PPU.writeRegister
  split_ifs <;> first
    | rfl
    | omega

/-- A bus read in the PPU register window returns 0 and leaves the whole bus
state unchanged (the handler only ever sees `addr % 8 < 8`). -/
theorem Memory.read_ppu_range (m : Memory) (addr : Nat)
    (h1 : 0x2000 ≤ addr) (h2 : addr < 0x4000) : m.read addr = (0, m) := by
  have hm : addr &&& 0xFFFF = addr := by rw [and_ffff]; omega
  unfold Memory.read
  rw [hm, if_neg (by omega), if_pos (by omega),
    PPU.readRegister_low m.ppu (addr % 8) (by omega)]

/-- A bus write in the PPU register window changes nothing (the handler only
ever sees `addr % 8 < 8`). -/
theorem Memory.write_ppu_range (m : Memory) (addr v : Nat)
    (h1 : 0x2000 ≤ addr) (h2 : addr < 0x4000) : m.write addr v = m := by
  have hm : addr &&& 0xFFFF = addr := by rw [and_ffff]; omega
  unfold Memory.write
  rw [hm, if_neg (by omega), if_pos (by omega),
    PPU.writeRegister_low m.ppu (addr % 8) (v &&& 0xFF) (by omega)]

/-! ## Claims -/

/-- C1 (counterexample): the claim says `reset()` leaves A, X and Y as they
were.  From A=5, X=6, Y=7 the reset zeroes all three. -/
theorem C1_counterexample :
    ((CPU.reset ⟨5, 6, 7, 0xFD, 0, 0x24⟩ memZero).1.A = 0 ∧
     (CPU.reset ⟨5, 6, 7, 0xFD, 0, 0x24⟩ memZero).1.X = 0 ∧
     (CPU.reset ⟨5, 6, 7, 0xFD, 0, 0x24⟩ memZero).1.Y = 0) ∧
    ¬ (5 = 0 ∧ 6 = 0 ∧ 7 = 0) :=
  ⟨⟨rfl, rfl, rfl⟩, by decide⟩

/-- C1 (amended): after `cpu.reset()`, in any memory state, SP = 0xFD, the I
flag is set, and PC is the 16-bit little-endian word read from 0xFFFC; and
A, X, Y are reset to 0 (they are not preserved). -/
theorem C1_reset_state (c : CPU) (m : Memory) :
    (c.reset m).1.SP = 0xFD ∧
    (c.reset m).1.status &&& CPU.flagI = CPU.flagI ∧
    (c.reset m).1.PC = (CPU.readWord m 0xFFFC).1 ∧
    (c.reset m).1.A = 0 ∧ (c.reset m).1.X = 0 ∧ (c.reset m).1.Y = 0 :=
  ⟨rfl, (by decide : (0x24 : Nat) &&& CPU.flagI = CPU.flagI), rfl, rfl, rfl, rfl⟩

/-- C2 (counterexample): the claim quantifies over all of [0x0000, 0x2000),
but for addr = 0x1800 (reached after writing 1 to address 0) the mirror read
at 0x1800 + 0x0800 = 0x2000 lands in the PPU register window and returns 0,
not the RAM byte. -/
theorem C2_counterexample :
    ((memZero.write 0 1).read 0x1800).1 = 1 ∧
    ((memZero.write 0 1).read (0x1800 + 0x0800)).1 = 0 ∧
    0x1800 < 0x2000 :=
  ⟨by decide, by decide, by decide⟩

/-- C2 (amended): the 2 KiB RAM mirror identity
`bus.cpu_read(addr) = bus.cpu_read(addr + 0x0800)` holds in every bus state
(hence after any sequence of writes) for all addr in [0x0000, 0x1800) — the
range where both addresses still decode to RAM. -/
theorem C2_ram_mirror (m : Memory) (addr : Nat) (h : addr < 0x1800) :
    (m.read addr).1 = (m.read (addr + 0x0800)).1 := by
  have hm : addr &&& 0xFFFF = addr := by rw [and_ffff]; omega
  have hm' : (addr + 0x0800) &&& 0xFFFF = addr + 0x0800 := by rw [and_ffff]; omega
  unfold Memory.read
  rw [hm, hm', if_pos (by omega), if_pos (by omega)]
  simp [Nat.add_mod_right]

/-- C2 (witness): the amended mirror identity at addr = 0x0000 in the state
with 1 written at address 0. -/
theorem C2_witness :
    0x0000 < 0x1800 ∧
    (((memZero.write 0 1).read 0x0000).1 =
      ((memZero.write 0 1).read (0x0000 + 0x0800)).1) :=
  ⟨by decide, C2_ram_mirror (memZero.write 0 1) 0x0000 (by decide)⟩

/-- C3: for every bus state and every addr in [0x2000, 0x4000),
`bus.cpu_read(addr) = bus.cpu_read(0x2000 + (addr & 7))` — both reads reach
`PPU.readRegister` with the same index `addr % 8` (and both return 0, since
the handler matches no index below 8; see C10). -/
theorem C3_ppu_mirror (m : Memory) (addr : Nat)
    (h1 : 0x2000 ≤ addr) (h2 : addr < 0x4000) :
    (m.read addr).1 = (m.read (0x2000 + (addr &&& 7))).1 := by
  have h7 : addr &&& 7 < 8 := by rw [and_seven]; omega
  rw [Memory.read_ppu_range m addr h1 h2,
    Memory.read_ppu_range m (0x2000 + (addr &&& 7)) (by omega) (by omega)]

/-- C3 (witness): the register-mirror identity at addr = 0x3456 in a freshly
constructed bus. -/
theorem C3_witness :
    0x2000 ≤ 0x3456 ∧ 0x3456 < 0x4000 ∧
    ((memZero.read 0x3456).1 = (memZero.read (0x2000 + (0x3456 &&& 7))).1) :=
  ⟨by decide, by decide, C3_ppu_mirror memZero 0x3456 (by decide) (by decide)⟩

/-- C4: evaluation of the code at the claim's failing input — a bus write of
any page value to 0x4014 is routed to the APU register decode (which has no
0x4014 case) and leaves the entire machine state unchanged: no bytes reach
OAM and no cycles are accounted anywhere.  The PPU's own DMA handler
(`PPU.performDMA`, behind `writeRegister` case 0x4014) is unreachable,
because the bus hands the PPU `addr % 8` and routes 0x4014 to the APU. -/
theorem C4_dma_write_is_ignored (m : Memory) (v : Nat) :
    m.write 0x4014 v = m ∧ (m.write 0x4014 v).ppu.oam = m.ppu.oam := by
  have ha : ∀ a : APU, a.write 0x4014 (v &&& 0xFF) = a := by
    intro a
    unfold APU.write
    split_ifs <;> first
      | rfl
      | omega
  have h : m.write 0x4014 v = m := by
    unfold Memory.write
    rw [show (0x4014 : Nat) &&& 0xFFFF = 0x4014 from rfl, if_neg (by decide),
      if_neg (by decide), if_pos (by decide), if_neg (by decide), ha m.apu]
  exact ⟨h, by rw [h]⟩

/-- C7: reading register 0x2002 through `PPU.readRegister` returns the
current status byte and, as a postcondition, clears status bit 7 (VBlank)
and the write toggle `w`, leaving every other status bit unchanged.  (The
claim concerns this register handler; the bus-side decode never reaches it —
see C10.) -/
theorem C7_status_read (p : PPU) :
    p.readRegister 0x2002 =
      (p.status, { p with status := p.status &&& 0x7F, writeToggle := 0 }) ∧
    (p.readRegister 0x2002).2.status.testBit 7 = false ∧
    (∀ i, i < 8 → i ≠ 7 →
      (p.readRegister 0x2002).2.status.testBit i = p.status.testBit i) := by
  refine ⟨by unfold PPU.readRegister; rw [if_pos rfl], ?_, ?_⟩
  · show (p.status &&& 0x7F).testBit 7 = false
    rw [Nat.testBit_and, show (0x7F : Nat).testBit 7 = false from by decide,
      Bool.and_false]
  · intro i h1 h2
    show (p.status &&& 0x7F).testBit i = p.status.testBit i
    rw [Nat.testBit_and]
    have h77 : (0x7F : Nat).testBit i = true := by
      interval_cases i
      · decide
      · decide
      · decide
      · decide
      · decide
      · decide
      · decide
      · exact absurd rfl h2
    rw [h77, Bool.and_true]

/-- C7 (witness): the 0x2002 read evaluated on a PPU whose status byte is
0xC3 with the write toggle raised: it returns 0xC3 and leaves status 0x43
with the toggle cleared, preserving bit 6. -/
theorem C7_witness :
    (({ PPU.init (fun _ => 0) with status := 0xC3, writeToggle := 1 }).readRegister
        0x2002).1 = 0xC3 ∧
    (({ PPU.init (fun _ => 0) with status := 0xC3, writeToggle := 1 }).readRegister
        0x2002).2.status.testBit 6 = true := by
  have h := C7_status_read
    { PPU.init (fun _ => 0) with status := 0xC3, writeToggle := 1 }
  refine ⟨by rw [h.1], ?_⟩
  rw [h.2.2 6 (by decide) (by decide)]
  decide

/-- C10: because the bus hands the PPU handlers `addr % 8` (a value in 0–7)
while those handlers switch on the full addresses 0x2000–0x2007, every CPU
read through the bus of an address in [0x2000, 0x4000) returns 0 (and leaves
the bus state untouched), and every CPU write through the bus to that range
leaves the entire PPU state unchanged. -/
theorem C10_ppu_decoupled (m : Memory) (addr v : Nat)
    (h1 : 0x2000 ≤ addr) (h2 : addr < 0x4000) :
    (m.read addr).1 = 0 ∧ (m.read addr).2 = m ∧ (m.write addr v).ppu = m.ppu := by
  rw [Memory.read_ppu_range m addr h1 h2, Memory.write_ppu_range m addr v h1 h2]
  exact ⟨rfl, rfl, rfl⟩

/-- C10 (witness): reading 0x2002 and writing 0x37 to 0x2006 through the bus
on a fresh machine: the read returns 0 and the write leaves the PPU's
`tempAddr` (and everything else) untouched. -/
theorem C10_witness :
    ((memZero.read 0x2002).1 = 0 ∧ (memZero.read 0x2002).2 = memZero ∧
      ((memZero.write 0x2006 0x37).ppu = memZero.ppu)) :=
  C10_ppu_decoupled memZero 0x2002 0x37 (by decide) (by decide)

/-! ## Controller shift sequence (C5) -/

/-- A bus read of 0x4016 is exactly a port-1 `Controller.read`. -/
theorem Memory.read_4016 (m : Memory) :
    m.read 0x4016 =
      ((m.controllers.player1.read).1,
       { m with controllers :=
           { m.controllers with player1 := (m.controllers.player1.read).2 } }) := rfl

/-- A bus write to 0x4016 strobes the controllers with the masked value. -/
theorem Memory.write_4016 (m : Memory) (v : Nat) :
    m.write 0x4016 v =
      { m with controllers :=
          { player1 := m.controllers.player1.write (v &&& 0xFF),
            player2 := m.controllers.player2.write (v &&& 0xFF) } } := rfl

/-- Sequence helper: `n` bus reads of 0x4016 are `n` port-1 controller reads; nothing else on
the bus changes. -/
theorem Memory.readSeq_4016 (n : Nat) (m : Memory) :
    Memory.readSeq 0x4016 n m =
      ((Controller.readSeq n m.controllers.player1).1,
       { m with controllers :=
           { m.controllers with
             player1 := (Controller.readSeq n m.controllers.player1).2 } }) := by
  induction n generalizing m with
  | zero => rfl
  | succ k ih =>
    show (let r := m.read 0x4016
          let rest := Memory.readSeq 0x4016 k r.2
          (r.1 :: rest.1, rest.2)) = _
    rw [Memory.read_4016 m]
    show (let rest := Memory.readSeq 0x4016 k
            { m with controllers :=
                { m.controllers with player1 := (m.controllers.player1.read).2 } }
          ((m.controllers.player1.read).1 :: rest.1, rest.2)) = _
    rw [ih]
    rfl

/-- Writing 1 then 0 to a controller port latches the buttons and drops the
strobe. -/
theorem Controller.strobe_writes (c : Controller) :
    (c.write 1).write 0 = ⟨c.buttons, 0, c.buttons.latched⟩ := rfl

/-- Eight reads from a just-latched port shift out A, B, Select, Start, Up,
Down, Left, Right in order (each ORed with 0x40) and drain the shift
register to 0. -/
theorem Controller.shift_eight : ∀ b : Buttons,
    Controller.readSeq 8 ⟨b, 0, b.latched⟩ = (b.readValues, ⟨b, 0, 0⟩) := by
  intro b
  obtain ⟨ba, bb, bs, bt, bu, bd, bl, br⟩ := b
  cases ba <;> cases bb <;> cases bs <;> cases bt <;>
    cases bu <;> cases bd <;> cases bl <;> cases br <;> decide

/-- Once the shift register is drained (strobe low), a read returns the bare
open-bus pattern 0x40 and leaves the port unchanged. -/
theorem Controller.read_drained (c : Controller) (h1 : c.strobe = 0)
    (h2 : c.shiftRegister = 0) : c.read = (0x40, c) := by
  obtain ⟨b, s, r⟩ := c
  cases h1
  cases h2
  simp [Controller.read]

/-- C5 (amended): after bus writes of 1 then 0 to 0x4016, the next eight bus
reads of 0x4016 return exactly the latched port-1 buttons in order A, B,
Select, Start, Up, Down, Left, Right, each ORed with 0x40 (so their bit-0
values are the button bits); after those eight reads the port-1 shift
register is drained to 0 with the strobe low, and from any such drained
state every further read of 0x4016 returns 0x40 — bit 0 equal to 0, not 1
(the source refills the register with zeros, not ones) — and leaves the
port drained, so the 9th and every subsequent read returns bit 0 = 0. -/
theorem C5_controller_shift :
    (∀ m : Memory,
      (Memory.readSeq 0x4016 8 ((m.write 0x4016 1).write 0x4016 0)).1 =
        m.controllers.player1.buttons.readValues) ∧
    (∀ m : Memory,
      (Memory.readSeq 0x4016 8 ((m.write 0x4016 1).write 0x4016 0)).2.controllers.player1 =
        ⟨m.controllers.player1.buttons, 0, 0⟩) ∧
    (∀ b : Buttons, b.readValues.map (fun v => v &&& 1) =
      [bitv b.a, bitv b.b, bitv b.select, bitv b.start,
       bitv b.up, bitv b.down, bitv b.left, bitv b.right]) ∧
    (∀ m : Memory, m.controllers.player1.strobe = 0 →
      m.controllers.player1.shiftRegister = 0 →
      (m.read 0x4016).1 = 0x40 ∧ 0x40 &&& 1 = 0 ∧
      (m.read 0x4016).2.controllers.player1 = m.controllers.player1) := by
  have hmap : ∀ b : Buttons, b.readValues.map (fun v => v &&& 1) =
      [bitv b.a, bitv b.b, bitv b.select, bitv b.start,
       bitv b.up, bitv b.down, bitv b.left, bitv b.right] := by
    intro b
    obtain ⟨ba, bb, bs, bt, bu, bd, bl, br⟩ := b
    cases ba <;> cases bb <;> cases bs <;> cases bt <;>
      cases bu <;> cases bd <;> cases bl <;> cases br <;> decide
  refine ⟨?_, ?_, hmap, ?_⟩
  · intro m
    rw [Memory.readSeq_4016]
    have hx : ((m.write 0x4016 1).write 0x4016 0).controllers.player1 =
        ⟨m.controllers.player1.buttons, 0, m.controllers.player1.buttons.latched⟩ := rfl
    rw [hx, Controller.shift_eight]
  · intro m
    rw [Memory.readSeq_4016]
    have hx : ((m.write 0x4016 1).write 0x4016 0).controllers.player1 =
        ⟨m.controllers.player1.buttons, 0, m.controllers.player1.buttons.latched⟩ := rfl
    rw [hx, Controller.shift_eight]
  · intro m h1 h2
    rw [Memory.read_4016, Controller.read_drained m.controllers.player1 h1 h2]
    exact ⟨rfl, rfl, rfl⟩

/-- C5 (witness): the amended behaviour evaluated on a fresh machine with
only Start pressed on port 1: the eight reads give bytes 0x40, 0x40, 0x40,
0x41, 0x40, 0x40, 0x40, 0x40 and a drained port then reads as 0x40. -/
theorem C5_witness :
    (Memory.readSeq 0x4016 8
        ((({ memZero with controllers :=
              { Input.init with player1 :=
                  { Controller.init with buttons :=
                      { Buttons.init with start := true } } } }).write 0x4016 1).write
          0x4016 0)).1 =
      [0x40, 0x40, 0x40, 0x41, 0x40, 0x40, 0x40, 0x40] ∧
    (memZero.read 0x4016).1 = 0x40 := by
  constructor
  · rw [C5_controller_shift.1]
    decide
  · exact (C5_controller_shift.2.2.2 memZero (by decide) (by decide)).1

/-- C5 (counterexample): the claim says the 9th read returns bit 0 equal
to 1; on a fresh machine the 9th read of 0x4016 after the strobe writes
returns 0x40, whose bit 0 is 0. -/
theorem C5_counterexample :
    (Memory.readSeq 0x4016 9 ((memZero.write 0x4016 1).write 0x4016 0)).1.getLast? =
      some 0x40 ∧ 0x40 &&& 1 = 0 ∧ ¬ (0x40 &&& 1 = 1) := by
  decide

/-! ## DMC channel invariants (C9) -/

/-- Method `fetchSample` never touches the output level. -/
theorem DMCChannel.fetchSample_level (m : Memory) (d : DMCChannel) :
    (DMCChannel.fetchSample m d).2.outputLevel = d.outputLevel := by
  simp only [DMCChannel.fetchSample, DMCChannel.restartSample]
  split_ifs <;> rfl

/-- One shifted-out sample bit moves the level by exactly +2 (only when the
result stays ≤ 127), by exactly −2 (only when the level was ≥ 2), or not at
all. -/
theorem DMCChannel.shiftPhase_level (d : DMCChannel) :
    d.shiftPhase.outputLevel = d.outputLevel ∨
    (d.shiftPhase.outputLevel = d.outputLevel + 2 ∧ d.outputLevel + 2 ≤ 127) ∨
    (d.shiftPhase.outputLevel = d.outputLevel - 2 ∧ 2 ≤ d.outputLevel) := by
  unfold DMCChannel.shiftPhase
  split_ifs with h1 h2 h3
  · exact Or.inr (Or.inl ⟨rfl, by omega⟩)
  · exact Or.inl rfl
  · exact Or.inr (Or.inr ⟨rfl, h3⟩)
  · exact Or.inl rfl

/-- The refill phase of `DMCChannel.step()` (fetch plus shift-register
reload) never touches the output level. -/
theorem DMCChannel.reload_level (m : Memory) (d : DMCChannel) :
    ((if d.bitsRemaining = 0 then
        let r0 := if d.bufferEmpty then DMCChannel.fetchSample m d else (m, d)
        if ¬ r0.2.bufferEmpty then
          (r0.1, { r0.2 with shiftRegister := r0.2.sampleBuffer, bitsRemaining := 8,
                             bufferEmpty := true })
        else r0
      else (m, d)).2).outputLevel = d.outputLevel := by
  by_cases hb : d.bitsRemaining = 0
  · rw [if_pos hb]
    by_cases he : d.bufferEmpty
    · simp only [if_pos he]
      split_ifs <;> simp [DMCChannel.fetchSample_level]
    · simp only [if_neg he]
      split_ifs
      rfl
  · rw [if_neg hb]

/-- The shift phase applied conditionally (`bitsRemaining > 0`) obeys the
same level-delta discipline. -/
theorem DMCChannel.stepShift_level (d : DMCChannel) (l : Nat)
    (hl : d.outputLevel = l) :
    (if d.bitsRemaining > 0 then d.shiftPhase else d).outputLevel = l ∨
    ((if d.bitsRemaining > 0 then d.shiftPhase else d).outputLevel = l + 2 ∧
      l + 2 ≤ 127) ∨
    ((if d.bitsRemaining > 0 then d.shiftPhase else d).outputLevel = l - 2 ∧
      2 ≤ l) := by
  subst hl
  split_ifs with h
  · exact DMCChannel.shiftPhase_level d
  · exact Or.inl rfl

/-- A `DMCChannel.step()` changes the output level by +2 (staying ≤ 127),
−2 (from a level ≥ 2), or not at all. -/
theorem DMCChannel.stepBus_level (m : Memory) :
    (DMCChannel.stepBus m).apu.dmc.outputLevel = m.apu.dmc.outputLevel ∨
    ((DMCChannel.stepBus m).apu.dmc.outputLevel = m.apu.dmc.outputLevel + 2 ∧
      m.apu.dmc.outputLevel + 2 ≤ 127) ∨
    ((DMCChannel.stepBus m).apu.dmc.outputLevel = m.apu.dmc.outputLevel - 2 ∧
      2 ≤ m.apu.dmc.outputLevel) := by
  by_cases h1 : m.apu.dmc.enabled
  · simp only [DMCChannel.stepBus]
    rw [if_neg (by simp [h1])]
    exact DMCChannel.stepShift_level _ _ (DMCChannel.reload_level m m.apu.dmc)
  · simp only [DMCChannel.stepBus]
    rw [if_pos (by simp [h1])]
    exact Or.inl rfl

/-- Method `DMCChannel.write` never pushes the level outside [0, 127]: only the
0x4011 case touches it, masked to 7 bits. -/
theorem DMCChannel.write_level (d : DMCChannel) (a v : Nat)
    (h : d.outputLevel ≤ 127) : (d.write a v).outputLevel ≤ 127 := by
  unfold DMCChannel.write
  split_ifs <;> first
    | exact h
    | exact Nat.and_le_right

/-- Enabling or disabling the channel (with its possible sample restart)
never touches the level. -/
theorem DMCChannel.setEnabled_level (d : DMCChannel) (e : Bool) :
    (d.setEnabled e).outputLevel = d.outputLevel := by
  simp only [DMCChannel.setEnabled, DMCChannel.restartSample]
  split_ifs <;> rfl

/-- The 0x4015 channel-enable write never touches the DMC level. -/
theorem APU.setChannelEnable_level (a : APU) (v : Nat) :
    (a.setChannelEnable v).dmc.outputLevel = a.dmc.outputLevel := by
  simp only [APU.setChannelEnable]
  exact DMCChannel.setEnabled_level a.dmc _

/-- No APU register write pushes the DMC level outside [0, 127]. -/
theorem APU.writeReg_dmc_level (a : APU) (addr v : Nat)
    (h : a.dmc.outputLevel ≤ 127) : (a.write addr v).dmc.outputLevel ≤ 127 := by
  simp only [APU.write]
  split_ifs <;> first
    | exact h
    | exact DMCChannel.write_level a.dmc addr v h
    | (rw [APU.setChannelEnable_level]; exact h)

/-- A bus write never pushes the DMC level outside [0, 127]: the only writes
that touch it are 0x4011 (masked to 7 bits) — every other register write,
channel enable/restart, or unrelated bus write leaves it alone. -/
theorem Memory.write_dmc_level (m : Memory) (a v : Nat)
    (h : m.apu.dmc.outputLevel ≤ 127) :
    (m.write a v).apu.dmc.outputLevel ≤ 127 := by
  simp only [Memory.write]
  split_ifs <;> first
    | exact h
    | exact APU.writeReg_dmc_level m.apu _ _ h

/-- A `DMCChannel.step()` keeps the level within [0, 127]. -/
theorem DMCChannel.stepBus_level_le (m : Memory)
    (h : m.apu.dmc.outputLevel ≤ 127) :
    (DMCChannel.stepBus m).apu.dmc.outputLevel ≤ 127 := by
  rcases DMCChannel.stepBus_level m with h1 | ⟨h1, h2⟩ | ⟨h1, h2⟩ <;> omega

/-- C9: (1) for every sequence of bus register writes and DMC `step()`
calls, the DMC output level stays within [0, 127]; (2) each step changes the
level by exactly +2 or −2 only when the result stays in range (otherwise it
is unchanged); (3) when the last byte of a sample is fetched, the channel
restarts the sample if the loop flag is set, and otherwise asserts the DMC
IRQ if IRQ is enabled. -/
theorem C9_dmc_invariants :
    (∀ (ops : List DMCOp) (m : Memory), m.apu.dmc.outputLevel ≤ 127 →
      (DMCOp.applyOps ops m).apu.dmc.outputLevel ≤ 127) ∧
    (∀ m : Memory,
      (DMCChannel.stepBus m).apu.dmc.outputLevel = m.apu.dmc.outputLevel ∨
      ((DMCChannel.stepBus m).apu.dmc.outputLevel = m.apu.dmc.outputLevel + 2 ∧
        m.apu.dmc.outputLevel + 2 ≤ 127) ∨
      ((DMCChannel.stepBus m).apu.dmc.outputLevel = m.apu.dmc.outputLevel - 2 ∧
        2 ≤ m.apu.dmc.outputLevel)) ∧
    (∀ (m : Memory) (d : DMCChannel), d.currentLength = 1 →
      (d.loop = true →
        (DMCChannel.fetchSample m d).2.currentAddress = d.sampleAddress ∧
        (DMCChannel.fetchSample m d).2.currentLength = d.sampleLength) ∧
      (d.loop = false → d.irqEnabled = true →
        (DMCChannel.fetchSample m d).2.dmcIRQ = true)) := by
  refine ⟨?_, DMCChannel.stepBus_level, ?_⟩
  · intro ops
    induction ops with
    | nil => intro m h; exact h
    | cons op rest ih =>
      intro m h
      cases op with
      | regWrite a v => exact ih _ (Memory.write_dmc_level m a v h)
      | tick => exact ih _ (DMCChannel.stepBus_level_le m h)
  · intro m d hlen
    constructor
    · intro hloop
      unfold DMCChannel.fetchSample DMCChannel.restartSample
      rw [if_pos (by omega)]
      simp only [hlen, hloop]
      norm_num
    · intro hloop hirq
      unfold DMCChannel.fetchSample
      rw [if_pos (by omega)]
      simp only [hlen, hloop, hirq]
      norm_num

/-- C9 (witness): from the constructor state (level 64), writing level 200
to 0x4011 (masked to 72) and stepping keeps the level within [0, 127]; and
the end-of-sample clause evaluated on a looping one-byte sample. -/
theorem C9_witness :
    (memZero.apu.dmc.outputLevel ≤ 127 ∧
      (DMCOp.applyOps [DMCOp.regWrite 0x4011 200, DMCOp.tick]
        memZero).apu.dmc.outputLevel ≤ 127) ∧
    ({ DMCChannel.init with currentLength := 1, loop := true }.currentLength = 1 ∧
      (DMCChannel.fetchSample memZero
        { DMCChannel.init with currentLength := 1, loop := true }).2.currentAddress =
        0xC000) := by
  refine ⟨⟨by decide, C9_dmc_invariants.1 _ memZero (by decide)⟩, by decide, ?_⟩
  have h := (C9_dmc_invariants.2.2 memZero
    { DMCChannel.init with currentLength := 1, loop := true } (by decide)).1 (by decide)
  exact h.1

/-! ## Scheduler timing (C6, C8)

With this repository's components, `runFrame` throws: the first PPU tick of
the first instruction either propagates a throw from inside `renderFrame`
or fails to destructure the `undefined` return of `PPU.step()`, so the call
never returns a `FrameStats`.  The lemmas below derive this for every
machine state and every behaviour of the rendering parameter. -/

/-- Method `CPU.step()` of this repository returns 2 cycles on every
opcode: LDA immediate, TAX, INX and the unhandled-opcode default case all
`return 2`. -/
theorem CPU.step_cycles (c : CPU) (m : Memory) : (c.step m).1 = 2 := by
  simp only [CPU.step, CPU.execute]
  split_ifs <;> rfl

/-- Method `PPU.step()` either throws (from inside `renderFrame`) or
returns `undefined` (`none`): it never produces the `newFrame`-carrying
object the scheduler's documented interface expects. -/
theorem PPU.stepWith_shape (renderF : PPU → Except JsError PPU) (p : PPU) :
    (∃ e, PPU.stepWith renderF p = Except.error e) ∨
    (∃ p', PPU.stepWith renderF p = Except.ok (none, p')) := by
  simp only [PPU.stepWith]
  split_ifs with h1 h2
  · split
    · exact Or.inl ⟨_, rfl⟩
    · split_ifs with h3
      · exact Or.inr ⟨_, rfl⟩
      · exact Or.inr ⟨_, rfl⟩
  · split
    · exact Or.inl ⟨_, rfl⟩
    · split_ifs with h3
      · exact Or.inr ⟨_, rfl⟩
      · exact Or.inr ⟨_, rfl⟩
  · exact Or.inr ⟨_, rfl⟩

/-- The scheduler's destructuring PPU tick always throws with these
components: either the PPU dot itself threw, or its `undefined` return
value fails to destructure. -/
theorem Emulator.ppuTickE_throws (renderF : PPU → Except JsError PPU)
    (st : EmuState) (prev : Bool) :
    ∃ e, Emulator.ppuTickE renderF st prev = Except.error e := by
  rcases PPU.stepWith_shape renderF st.mem.ppu with ⟨e, he⟩ | ⟨p', hp⟩
  · exact ⟨e, by simp only [Emulator.ppuTickE]; rw [he]⟩
  · exact ⟨Emulator.newFrameTypeError, by simp only [Emulator.ppuTickE]; rw [hp]⟩

/-- A non-empty scheduler PPU batch always throws. -/
theorem Emulator.ppuBatchE_throws (renderF : PPU → Except JsError PPU)
    (n : Nat) (st : EmuState) (prev : Bool) (h : 0 < n) :
    ∃ e, Emulator.ppuBatchE renderF n st prev = Except.error e := by
  cases n with
  | zero => omega
  | succ k =>
    rcases Emulator.ppuTickE_throws renderF st prev with ⟨e, he⟩
    exact ⟨e, by simp only [Emulator.ppuBatchE]; rw [he]⟩

/-- Every while-loop iteration throws: the CPU step completes (2 cycles),
then the first of its 6 scheduled PPU ticks throws. -/
theorem Emulator.frameIterE_throws (renderF : PPU → Except JsError PPU)
    (st : EmuState) (prev : Bool) :
    ∃ e, Emulator.frameIterE renderF st prev = Except.error e := by
  have hc := CPU.step_cycles st.cpu st.mem
  rcases Emulator.ppuBatchE_throws renderF (3 * (st.cpu.step st.mem).1)
    ⟨(st.cpu.step st.mem).2.1, (st.cpu.step st.mem).2.2⟩ prev
    (by rw [hc]; omega) with ⟨e, he⟩
  exact ⟨e, by simp only [Emulator.frameIterE]; rw [he]⟩

/-- With any positive fuel, the loop enters its first iteration (the guard
holds at zeroed counters) and throws there. -/
theorem Emulator.runFrameLoopE_throws (renderF : PPU → Except JsError PPU)
    (fuel : Nat) (st : EmuState) (prev : Bool) (ppr : Nat) (h : 0 < fuel) :
    ∃ e, Emulator.runFrameLoopE renderF fuel st prev 0 ppr 0 =
      Except.error e := by
  cases fuel with
  | zero => omega
  | succ k =>
    rcases Emulator.frameIterE_throws renderF st prev with ⟨e, he⟩
    refine ⟨e, ?_⟩
    simp only [Emulator.runFrameLoopE]
    rw [if_pos (by norm_num), he]

/-- C6 (amended): every `run_frame()` call in NTSC with this repository's
components returns no `FrameStats` at all: after one CPU instruction it
throws a TypeError at the first PPU tick — destructuring the `undefined`
return of the repository PPU's `step()`, or propagating a throw from
inside `renderFrame` (the conclusion holds for every behaviour `renderF`
of the unmodelled drawing code) — so no cpu_cycles count lies in
[29779, 29781] and no frame completes.  (The `Emulator` constructor would
in fact already throw on the repository CPU's missing `connectBus` and
APU's missing `reset`.) -/
theorem C6_run_frame_throws (renderF : PPU → Except JsError PPU)
    (st : EmuState) (prev : Bool) (fc : Nat) :
    Emulator.returned (Emulator.runFrameNexus renderF st prev fc) = false ∧
    (∃ e, Emulator.runFrameNexus renderF st prev fc = Except.error e) := by
  rcases Emulator.runFrameLoopE_throws renderF Emulator.fuelNexus st prev 0
    (by decide) with ⟨e, he⟩
  have hr : Emulator.runFrameNexus renderF st prev fc = Except.error e := by
    simp only [Emulator.runFrameNexus]
    rw [he]
  rw [hr]
  exact ⟨rfl, e, rfl⟩

/-- C6 (counterexample): evaluated on the machine booted from an all-0xE8
(INX) cartridge: `run_frame()` throws the newFrame-destructure TypeError
after its first instruction — it returns no `FrameStats`, so there is no
returned cpu_cycles count in [29779, 29781] and no completed frame. -/
theorem C6_counterexample :
    Emulator.thrownMsg
        (Emulator.runFrameNexus renderNoop (EmuState.boot fun _ => 0xE8) false 0) =
      some "cannot destructure property newFrame of undefined" ∧
    Emulator.returned
        (Emulator.runFrameNexus renderNoop (EmuState.boot fun _ => 0xE8) false 0) =
      false :=
  ⟨by decide, by decide⟩

/-- C8 (amended): every opcode outside the decoded set {0xA9, 0xAA, 0xE8}
executes as a 2-cycle NOP — `cpu.step()` returns 2, PC advances by exactly
1 (the opcode fetch), and the registers and bus are otherwise untouched
(the default case only logs a console warning).  No diagnostic counter of
such opcodes exists: the `FrameStats` record `run_frame()` would build
carries only cpuCyclesRun, ppuCyclesRun, framesCompleted and frameIndex —
and with this repository's components `run_frame()` in fact throws before
returning any stats at all. -/
theorem C8_unhandled_nop (c : CPU) (m : Memory)
    (h : ¬ CPU.implemented (m.read c.PC).1) :
    c.step m = (2, { c with PC := c.PC + 1 }, (m.read c.PC).2) := by
  unfold CPU.implemented at h
  push_neg at h
  simp only [CPU.step, CPU.execute]
  rw [if_neg h.1, if_neg h.2.1, if_neg h.2.2]

/-- C8 (witness): stepping the fresh CPU over a zeroed bus fetches opcode
0x00 — not in the decoded set — and behaves as the 2-cycle NOP. -/
theorem C8_witness :
    ¬ CPU.implemented (memZero.read CPU.init.PC).1 ∧
    CPU.init.step memZero =
      (2, { CPU.init with PC := CPU.init.PC + 1 }, (memZero.read CPU.init.PC).2) :=
  ⟨by decide, C8_unhandled_nop CPU.init memZero (by decide)⟩

/-- C8 (counterexample): on the machine booted from an all-0xFF cartridge,
`run_frame()` executes the unhandled opcode 0xFF as its first (and only)
instruction — the CPU step completes before the first PPU tick — and then
throws: it returns no `FrameStats` at all, so no diagnostic counter of
unhandled opcodes is incremented and reported in one. -/
theorem C8_counterexample :
    ((EmuState.boot fun _ => 0xFF).mem.read (EmuState.boot fun _ => 0xFF).cpu.PC).1 =
      0xFF ∧
    ¬ CPU.implemented 0xFF ∧
    Emulator.thrownMsg
        (Emulator.runFrameNexus renderNoop (EmuState.boot fun _ => 0xFF) false 0) =
      some "cannot destructure property newFrame of undefined" ∧
    Emulator.returned
        (Emulator.runFrameNexus renderNoop (EmuState.boot fun _ => 0xFF) false 0) =
      false :=
  ⟨by decide, by decide, by decide, by decide⟩

end Nexus
